import Mathlib

/-!
Verification development for the SmartCampusUCV_ai recommendation pipeline.

The definitions below are a shallow embedding of the Python sources:
  src/ai/nlp/nlp_core.py        (NLPModule, extraction cascade)
  src/ai/nlp/gemini_manager.py  (remote model-selection policy)
  src/ai/nlp/ollama_manager.py  (daemon bootstrap / health polling)
  src/ai/nlp/prompt_creator.py  (prompt assembly)
  src/api/routes.py, schemas.py (shape of the candidate dictionaries)

Python floats are modelled as exact decimal fractions (`NumV`, compared
by integer cross-multiplication, with rational value `NumV.toQ`); JSON
values as the inductive `JVal`; Python truthiness and `==` (under which
booleans compare numerically with numbers) as `pyTruthy` and `pyEq`.
-/

namespace SmartCampus

/-- A JSON number, exactly: the value `mant / 10 ^ exp10`.  Python floats
are modelled as exact decimal fractions (kept unnormalized so that all
comparisons are integer cross-multiplications). -/
structure NumV where
  mant : Int
  exp10 : Nat
deriving Repr, DecidableEq

/-- The exact rational value of a JSON number. -/
def NumV.toQ (v : NumV) : ℚ := (v.mant : ℚ) / (10 : ℚ) ^ v.exp10

/-- An integer as a JSON number. -/
def NumV.ofInt (i : Int) : NumV := ⟨i, 0⟩

/-- Numeric equality (`mant₁ / 10^e₁ = mant₂ / 10^e₂` by
cross-multiplication). -/
def numEq (a b : NumV) : Bool :=
  a.mant * (10 : Int) ^ b.exp10 == b.mant * (10 : Int) ^ a.exp10

/-- Numeric strict order by cross-multiplication. -/
def numLt (a b : NumV) : Bool :=
  decide (a.mant * (10 : Int) ^ b.exp10 < b.mant * (10 : Int) ^ a.exp10)

/-- A Python boolean as the number it compares equal to. -/
def boolNum (b : Bool) : NumV := ⟨if b then 1 else 0, 0⟩

/-- A JSON value as produced by `json.loads`. -/
inductive JVal where
  | jnull : JVal
  | jbool : Bool → JVal
  | jnum : NumV → JVal
  | jstr : String → JVal
  | jarr : List JVal → JVal
  | jobj : List (String × JVal) → JVal
deriving Repr

/-- The numeric value of a Python object, when it is a number
(Python `bool` is a subclass of `int`: `True == 1`, `False == 0`). -/
def pyNum : JVal → Option ℚ
  | .jbool b => some (if b then 1 else 0)
  | .jnum v => some v.toQ
  | _ => none

/-- Python truthiness of a JSON-decoded value. -/
def pyTruthy : JVal → Bool
  | .jnull => false
  | .jbool b => b
  | .jnum v => decide (v.mant ≠ 0)
  | .jstr s => !s.isEmpty
  | .jarr l => !l.isEmpty
  | .jobj l => !l.isEmpty

/-- Dictionary lookup (first occurrence of the key). -/
def jlookup (fs : List (String × JVal)) (k : String) : Option JVal :=
  (fs.find? (fun p => p.1 == k)).map (·.2)

mutual
/-- Python `==` on JSON-decoded values: numbers (including booleans)
compare by value, strings by content, lists elementwise, dictionaries
as unordered key/value maps; distinct kinds are unequal. -/
def pyEq : JVal → JVal → Bool
  | .jnull, .jnull => true
  | .jbool x, .jbool y => x == y
  | .jbool x, .jnum q => numEq (boolNum x) q
  | .jnum q, .jbool y => numEq q (boolNum y)
  | .jnum p, .jnum q => numEq p q
  | .jstr s, .jstr t => s == t
  | .jarr xs, .jarr ys => pyEqList xs ys
  | .jobj fs, .jobj gs =>
      pyEqFields fs gs && gs.all (fun p => (jlookup fs p.1).isSome)
  | _, _ => false

def pyEqList : List JVal → List JVal → Bool
  | [], [] => true
  | x :: xs, y :: ys => pyEq x y && pyEqList xs ys
  | _, _ => false

def pyEqFields : List (String × JVal) → List (String × JVal) → Bool
  | [], _ => true
  | (k, v) :: fs, gs =>
      (match jlookup gs k with
       | some w => pyEq v w
       | none => false) && pyEqFields fs gs
end

/-- JSON whitespace accepted between tokens by `json.loads`. -/
def jsonWs (c : Char) : Bool :=
  c = ' ' || c = '\t' || c = '\n' || c = '\r'

def digitsToNat (ds : List Char) : Nat :=
  ds.foldl (fun n c => n * 10 + (c.toNat - 48)) 0

def hexDigitVal (c : Char) : Option Nat :=
  if c.isDigit then some (c.toNat - 48)
  else if 'a' ≤ c && c ≤ 'f' then some (c.toNat - 87)
  else if 'A' ≤ c && c ≤ 'F' then some (c.toNat - 55)
  else none

/-- Parse a JSON number (grammar of RFC 8259, as enforced by `json.loads`);
returns its exact decimal value and the remaining input. -/
def parseJNumber (cs : List Char) : Option (NumV × List Char) :=
  let (neg, cs1) :=
    match cs with
    | '-' :: t => (true, t)
    | _ => (false, cs)
  match cs1 with
  | [] => none
  | c :: _ =>
    if !c.isDigit then none
    else
      let intDs := cs1.takeWhile Char.isDigit
      if c = '0' && intDs.length > 1 then none
      else
        let rest1 := cs1.drop intDs.length
        let base : Nat := digitsToNat intDs
        let fracStep : Option ((Nat × Nat) × List Char) :=
          match rest1 with
          | '.' :: t =>
            let fr := t.takeWhile Char.isDigit
            if fr.isEmpty then none
            else some ((base * 10 ^ fr.length + digitsToNat fr, fr.length), t.drop fr.length)
          | _ => some ((base, 0), rest1)
        match fracStep with
        | none => none
        | some ((m, f), rest2) =>
          let expStep : Option ((Nat × Nat) × List Char) :=
            match rest2 with
            | e :: t =>
              if e = 'e' || e = 'E' then
                let (eneg, t2) :=
                  match t with
                  | '-' :: t3 => (true, t3)
                  | '+' :: t3 => (false, t3)
                  | _ => (false, t)
                let eds := t2.takeWhile Char.isDigit
                if eds.isEmpty then none
                else
                  let k := digitsToNat eds
                  some (if eneg then (m, f + k) else (m * 10 ^ k, f), t2.drop eds.length)
              else some ((m, f), rest2)
            | [] => some ((m, f), rest2)
          match expStep with
          | none => none
          | some ((m2, f2), rest3) =>
            some (⟨if neg then -(m2 : Int) else (m2 : Int), f2⟩, rest3)

/-- Parse the body of a JSON string after the opening quote (strict mode:
raw control characters are rejected, escapes as in `json.loads`). -/
def parseJStringAux : Nat → List Char → Option (List Char × List Char)
  | 0, _ => none
  | _, [] => none
  | fuel + 1, c :: t =>
    if c = '"' then some ([], t)
    else if c = '\\' then
      match t with
      | [] => none
      | e :: t2 =>
        let simpleEsc : Option Char :=
          if e = '"' then some '"'
          else if e = '\\' then some '\\'
          else if e = '/' then some '/'
          else if e = 'n' then some '\n'
          else if e = 't' then some '\t'
          else if e = 'r' then some '\r'
          else if e = 'b' then some '\x08'
          else if e = 'f' then some '\x0c'
          else none
        match simpleEsc with
        | some ch =>
          match parseJStringAux fuel t2 with
          | some (body, rest) => some (ch :: body, rest)
          | none => none
        | none =>
          if e = 'u' then
            match t2 with
            | h1 :: h2 :: h3 :: h4 :: t3 =>
              match hexDigitVal h1, hexDigitVal h2, hexDigitVal h3, hexDigitVal h4 with
              | some a, some b, some c2, some d =>
                let code := ((a * 16 + b) * 16 + c2) * 16 + d
                match parseJStringAux fuel t3 with
                | some (body, rest) => some (Char.ofNat code :: body, rest)
                | none => none
              | _, _, _, _ => none
            | _ => none
          else none
    else if c.toNat < 32 then none
    else
      match parseJStringAux fuel t with
      | some (body, rest) => some (c :: body, rest)
      | none => none

/-- Insert a key into an association list, keeping the first position of the
key but overwriting its value (`dict` duplicate-key semantics). -/
def upsertField (fs : List (String × JVal)) (k : String) (v : JVal) :
    List (String × JVal) :=
  match fs with
  | [] => [(k, v)]
  | (k2, w) :: t => if k2 == k then (k, v) :: t else (k2, w) :: upsertField t k v

mutual
/-- Parse a JSON value (input already stripped of leading whitespace). -/
def parseJValue : Nat → List Char → Option (JVal × List Char)
  | 0, _ => none
  | fuel + 1, cs =>
    match cs with
    | [] => none
    | c :: t =>
      if c = '"' then
        match parseJStringAux (fuel + 1) t with
        | some (body, rest) => some (.jstr (String.mk body), rest)
        | none => none
      else if c = '\x7b' then
        match parseJMembers fuel (t.dropWhile jsonWs) [] with
        | some (fs, rest) => some (.jobj fs, rest)
        | none => none
      else if c = '[' then
        match parseJItems fuel (t.dropWhile jsonWs) with
        | some (xs, rest) => some (.jarr xs, rest)
        | none => none
      else if c = 't' then
        match cs with
        | 't' :: 'r' :: 'u' :: 'e' :: rest => some (.jbool true, rest)
        | _ => none
      else if c = 'f' then
        match cs with
        | 'f' :: 'a' :: 'l' :: 's' :: 'e' :: rest => some (.jbool false, rest)
        | _ => none
      else if c = 'n' then
        match cs with
        | 'n' :: 'u' :: 'l' :: 'l' :: rest => some (.jnull, rest)
        | _ => none
      else
        match parseJNumber cs with
        | some (q, rest) => some (.jnum q, rest)
        | none => none

/-- Parse the members of a JSON object after the opening brace (leading
whitespace already skipped), accumulating fields with last-wins keys. -/
def parseJMembers (fuel : Nat) (cs : List Char) (acc : List (String × JVal)) :
    Option (List (String × JVal) × List Char) :=
  match fuel, cs with
  | _, '\x7d' :: rest => some (acc, rest)
  | 0, _ => none
  | fuel + 1, '"' :: t =>
    match parseJStringAux (fuel + 1) t with
    | some (kbody, r1) =>
      match r1.dropWhile jsonWs with
      | ':' :: r2 =>
        match parseJValue fuel (r2.dropWhile jsonWs) with
        | some (v, r3) =>
          let acc2 := upsertField acc (String.mk kbody) v
          match r3.dropWhile jsonWs with
          | ',' :: r4 =>
            match (r4.dropWhile jsonWs) with
            | '"' :: _ => parseJMembers fuel (r4.dropWhile jsonWs) acc2
            | _ => none
          | '\x7d' :: r4 => some (acc2, r4)
          | _ => none
        | none => none
      | _ => none
    | none => none
  | _, _ => none

/-- Parse the items of a JSON array after the opening bracket (leading
whitespace already skipped). -/
def parseJItems (fuel : Nat) (cs : List Char) : Option (List JVal × List Char) :=
  match fuel, cs with
  | _, ']' :: rest => some ([], rest)
  | 0, _ => none
  | fuel + 1, cs =>
    match parseJValue fuel cs with
    | some (v, r1) =>
      match r1.dropWhile jsonWs with
      | ',' :: r2 =>
        match parseJItems fuel (r2.dropWhile jsonWs) with
        | some (xs, rest) => some (v :: xs, rest)
        | none => none
      | ']' :: r2 => some ([v], r2)
      | _ => none
    | none => none
end

/-- `json.loads`: parse a complete JSON document; trailing
non-whitespace makes the whole parse fail. -/
def json_loads (s : String) : Option JVal :=
  match parseJValue (s.length + 1) (s.data.dropWhile jsonWs) with
  | some (v, rest) => if (rest.dropWhile jsonWs).isEmpty then some v else none
  | none => none

/-! ### The three regular expressions of nlp_core.py, as direct scanners

`RECOMMENDATION_JSON_REGEX` is
`(?:GENERAR_RECOMENDACION_JSON|Generar_recomendacion_JSON|GENERAR_RECOMENDACION|generar_recomendacion):\s*({[^}]*})`
with `DOTALL | IGNORECASE`: under IGNORECASE the four alternatives collapse
to the two case-insensitive words below; `[^}]*` is a greedy run of
non-`}` characters (newlines included), so the capture always extends to
the first closing brace after the opening one.

`RECOMMENDATION_JSON_MULTILINE_REGEX` is
`(?:GENERAR_RECOMENDACION_JSON|Generar_recomendacion_JSON):\s*({[\s\S]*?})`
with `IGNORECASE`: the lazy `[\s\S]*?` also stops at the first `}`.

`ACTIVITY_ID_REGEX` is `"actividad_id"\s*:\s*(\d+)` with `IGNORECASE`. -/

/-- `\s` of Python `re` (ASCII part). -/
def reWs (c : Char) : Bool :=
  c = ' ' || c = '\t' || c = '\n' || c = '\r' || c = '\x0b' || c = '\x0c'

/-- Case-insensitive character comparison (ASCII case folding). -/
def charCI (a b : Char) : Bool := a.toLower == b.toLower

/-- Match a literal pattern case-insensitively at the head of the input,
returning the remaining input. -/
def stripPrefixCI : List Char → List Char → Option (List Char)
  | [], cs => some cs
  | _ :: _, [] => none
  | p :: ps, c :: cs => if charCI p c then stripPrefixCI ps cs else none

/-- Match `{[^}]*}` (equivalently the lazy `{[\s\S]*?}`) at the head of the
input: an opening brace, the run of characters up to the first closing
brace, and that closing brace.  Returns the matched object text and the
remaining input. -/
def takeObj (cs : List Char) : Option (List Char × List Char) :=
  match cs with
  | '\x7b' :: rest =>
    let mid := rest.takeWhile (fun c => c ≠ '\x7d')
    match rest.drop mid.length with
    | '\x7d' :: after => some ('\x7b' :: (mid ++ ['\x7d']), after)
    | _ => none
  | _ => none

def markerJson : List Char := "generar_recomendacion_json".data
def markerPlain : List Char := "generar_recomendacion".data

/-- Try one marker alternative at the current position: the marker
(case-insensitively), a colon, `\s*`, then a brace object. -/
def tryMarker (m : List Char) (cs : List Char) : Option (List Char × List Char) :=
  match stripPrefixCI m cs with
  | some (':' :: r2) => takeObj (r2.dropWhile reWs)
  | _ => none

/-- Try the marker alternatives in the order of the regex alternation. -/
def tryMarkers : List (List Char) → List Char → Option (List Char × List Char)
  | [], _ => none
  | m :: ms, cs =>
    match tryMarker m cs with
    | some r => some r
    | none => tryMarkers ms cs

/-- `findall` scan: left to right, non-overlapping, resuming after each
match; on failure advance one character. -/
def findAllAux (markers : List (List Char)) : Nat → List Char → List (List Char)
  | 0, _ => []
  | _, [] => []
  | fuel + 1, c :: cs =>
    match tryMarkers markers (c :: cs) with
    | some (cap, rest) => cap :: findAllAux markers fuel rest
    | none => findAllAux markers fuel cs

/-- `RECOMMENDATION_JSON_REGEX.findall` (captured group 1). -/
def findAllRecMarker (text : String) : List String :=
  (findAllAux [markerJson, markerPlain] text.data.length text.data).map String.mk

/-- `RECOMMENDATION_JSON_MULTILINE_REGEX.findall` (captured group 1). -/
def findAllRecMarkerMultiline (text : String) : List String :=
  (findAllAux [markerJson] text.data.length text.data).map String.mk

/-- Try `"actividad_id"\s*:\s*(\d+)` at the current position, returning the
captured digit run and the remaining input. -/
def tryActivityIdAt (cs : List Char) : Option (List Char × List Char) :=
  match cs with
  | '"' :: r1 =>
    match stripPrefixCI "actividad_id".data r1 with
    | some ('"' :: r3) =>
      match r3.dropWhile reWs with
      | ':' :: r5 =>
        let r6 := r5.dropWhile reWs
        let ds := r6.takeWhile Char.isDigit
        if ds.isEmpty then none else some (ds, r6.drop ds.length)
      | _ => none
    | _ => none
  | _ => none

def findIdsAux : Nat → List Char → List (List Char)
  | 0, _ => []
  | _, [] => []
  | fuel + 1, c :: cs =>
    match tryActivityIdAt (c :: cs) with
    | some (ds, rest) => ds :: findIdsAux fuel rest
    | none => findIdsAux fuel cs

/-- `ACTIVITY_ID_REGEX.findall`: all captured digit runs. -/
def findAllActivityIds (text : String) : List String :=
  (findIdsAux text.data.length text.data).map String.mk

/-- `ACTIVITY_ID_REGEX.search`: the first match, if any. -/
def searchActivityId (text : String) : Option String :=
  (findAllActivityIds text).head?

/-! ### Python string helpers used by the extraction code -/

/-- Whitespace stripped by `str.strip()` (ASCII part). -/
def pyWsChar (c : Char) : Bool :=
  c = ' ' || c = '\t' || c = '\n' || c = '\r' || c = '\x0b' || c = '\x0c'

/-- `str.strip()`. -/
def pyStrip (s : String) : String :=
  String.mk (((s.data.dropWhile pyWsChar).reverse.dropWhile pyWsChar).reverse)

/-- `.replace('\n', '').replace('\r', '')`. -/
def removeNewlines (s : String) : String :=
  String.mk (s.data.filter (fun c => c ≠ '\n' && c ≠ '\r'))

/-- Is the first list a prefix of the second? -/
def listIsPrefix : List Char → List Char → Bool
  | [], _ => true
  | _ :: _, [] => false
  | p :: ps, c :: cs => p == c && listIsPrefix ps cs

/-- Python `s.startswith(p)`. -/
def pyStartsWith (s p : String) : Bool := listIsPrefix p.data s.data

/-- Python `<` on single characters (by code point). -/
def charLt (a b : Char) : Bool := decide (a.toNat < b.toNat)

/-- Python `<` on strings: lexicographic by code point. -/
def strLtList : List Char → List Char → Bool
  | [], [] => false
  | [], _ :: _ => true
  | _ :: _, [] => false
  | a :: as, b :: bs => if a == b then strLtList as bs else charLt a b

def pyStrLt (s t : String) : Bool := strLtList s.data t.data

/-- Does the second list occur as a contiguous run inside the first? -/
def listHasInfix : List Char → List Char → Bool
  | cs, ns =>
    if listIsPrefix ns cs then true
    else
      match cs with
      | [] => false
      | _ :: t => listHasInfix t ns

/-- Python substring containment `needle in hay`. -/
def strContains (hay needle : String) : Bool :=
  listHasInfix hay.data needle.data

/-- `int()` on a run of ASCII digits. -/
def pyInt (ds : String) : Int := (digitsToNat ds.data : Int)

/-! ### Data model

An activity candidate, shaped like the dictionaries built in
`api/routes.py` (keys in their insertion order: id, categoria, titulo,
descripcion, fecha, lugar, nivel_sostenibilidad); a `none` field models a
missing or `None` entry, which `dict.get` treats alike. -/

structure Actividad where
  id : Option Int
  categoria : Option String
  titulo : Option String
  descripcion : Option String
  fecha : Option String
  lugar : Option String
  nivel_sostenibilidad : Option Int
deriving Repr, DecidableEq

/-- The value of `act.get("id")` as a Python object. -/
def idJ : Option Int → JVal
  | none => .jnull
  | some i => .jnum (NumV.ofInt i)

/-- A recommendation record as assembled by
`NLPModule._extract_recommendations`. -/
structure Recomendacion where
  actividad_id : JVal
  titulo : String
  categoria : String
  razon : JVal
  puntuacion : JVal
  actividad : Actividad
deriving Repr

/-- Mutable state of the extraction loops: the `recommendations` list and
the `processed_ids` set (modelled as the list of added values; every
addition is guarded by a non-membership check, so list insertion order
carries the same information as the Python set). -/
structure ExtractState where
  recommendations : List Recomendacion
  processed_ids : List JVal
deriving Repr

/-- `{act.get("id") for act in actividades_disponibles if act.get("id")}`:
the set of truthy candidate ids (missing, None and 0 are dropped). -/
def actividad_ids_set (acts : List Actividad) : List Int :=
  acts.filterMap fun a =>
    match a.id with
    | some i => if i = 0 then none else some i
    | none => none

/-- Python set membership `v in actividad_ids_set` (by `==`). -/
def memIdSet (v : JVal) (s : List Int) : Bool :=
  s.any fun i => pyEq v (.jnum (NumV.ofInt i))

/-- Python set membership `v in processed_ids` (by `==`). -/
def memProcessed (v : JVal) (p : List JVal) : Bool :=
  p.any fun w => pyEq v w

/-- `next((act for act in actividades_disponibles if act.get("id") ==
actividad_id), None)`. -/
def findActividad (acts : List Actividad) (aid : JVal) : Option Actividad :=
  acts.find? fun a => pyEq (idJ a.id) aid

def razonDefault : String := "Recomendada basándose en tus preferencias"

def razonTitulo : String :=
  "Recomendada basándose en tus preferencias y mencionada en la respuesta"

/-- The Python float literal `0.8` as an exact decimal. -/
def score08 : NumV := ⟨8, 1⟩

/-- The Python float literal `0.85` as an exact decimal. -/
def score085 : NumV := ⟨85, 2⟩

/-- `dict.get(k)`: the stored value (possibly `None`), or `None` when the
key is absent. -/
def jget (fs : List (String × JVal)) (k : String) : JVal :=
  (jlookup fs k).getD .jnull

/-- `dict.get(k, d)`: the stored value when the key is present (even when
it is `None`), the default otherwise. -/
def jgetD (fs : List (String × JVal)) (k : String) (d : JVal) : JVal :=
  (jlookup fs k).getD d

/-- One iteration of the bare-id loop (nlp_core.py lines 181-200): convert
the captured digits, validate set membership and non-duplication, then
emit a default-scored record. -/
def idStep (acts : List Actividad) (idSet : List Int) (s : ExtractState)
    (ds : String) : ExtractState :=
  let n := pyInt ds
  let aid : JVal := .jnum (NumV.ofInt n)
  if memIdSet aid idSet && !memProcessed aid s.processed_ids then
    match findActividad acts aid with
    | some act =>
      { recommendations := s.recommendations ++ [{
          actividad_id := aid,
          titulo := act.titulo.getD "",
          categoria := act.categoria.getD "",
          razon := .jstr razonDefault,
          puntuacion := .jnum score08,
          actividad := act }],
        processed_ids := s.processed_ids ++ [aid] }
    | none => s
  else s

/-- The title-mention fallback (nlp_core.py lines 205-221): scan candidates
in order; on the first title (stripped, longer than 3 characters) occurring
verbatim in the reply whose id is truthy and unprocessed, emit one record
and stop (`break`); a title match whose id check fails does not stop the
scan. -/
def titleScan (text : String) (s : ExtractState) :
    List Actividad → ExtractState
  | [] => s
  | act :: rest =>
    let titulo := pyStrip (act.titulo.getD "")
    if !titulo.isEmpty && titulo.length > 3 && strContains text titulo then
      match act.id with
      | some i =>
        if i ≠ 0 && !memProcessed (.jnum (NumV.ofInt i)) s.processed_ids then
          { recommendations := s.recommendations ++ [{
              actividad_id := .jnum (NumV.ofInt i),
              titulo := titulo,
              categoria := act.categoria.getD "",
              razon := .jstr razonTitulo,
              puntuacion := .jnum score085,
              actividad := act }],
            processed_ids := s.processed_ids ++ [.jnum (NumV.ofInt i)] }
        else titleScan text s rest
      | none => titleScan text s rest
    else titleScan text s rest

/-- One iteration of the marker-object loop (nlp_core.py lines 224-280):
clean the captured object, parse it as JSON, validate the id and emit a
record with the supplied reason/score or the defaults; when parsing fails,
salvage a bare id from the same fragment (`ACTIVITY_ID_REGEX.search`) and
emit a default record. -/
def jsonStep (acts : List Actividad) (idSet : List Int) (s : ExtractState)
    (m : String) : ExtractState :=
  let cleaned := pyStrip (removeNewlines m)
  match json_loads cleaned with
  | some (.jobj data) =>
    let aid := jget data "actividad_id"
    if pyTruthy aid && memIdSet aid idSet && !memProcessed aid s.processed_ids then
      match findActividad acts aid with
      | some act =>
        { recommendations := s.recommendations ++ [{
            actividad_id := aid,
            titulo := act.titulo.getD "",
            categoria := act.categoria.getD "",
            razon := jgetD data "razon" (.jstr razonDefault),
            puntuacion := jgetD data "puntuacion" (.jnum score08),
            actividad := act }],
          processed_ids := s.processed_ids ++ [aid] }
      | none => s
    else s
  | some _ => s
  | none =>
    match searchActivityId m with
    | some ds =>
      let n := pyInt ds
      let aid : JVal := .jnum (NumV.ofInt n)
      if memIdSet aid idSet && !memProcessed aid s.processed_ids then
        match findActividad acts aid with
        | some act =>
          { recommendations := s.recommendations ++ [{
              actividad_id := aid,
              titulo := act.titulo.getD "",
              categoria := act.categoria.getD "",
              razon := .jstr razonDefault,
              puntuacion := .jnum score08,
              actividad := act }],
            processed_ids := s.processed_ids ++ [aid] }
        | none => s
      else s
    | none => s

/-- The marker matches the extractor works on: the single-line regex first,
the multiline regex only when the first found nothing
(nlp_core.py lines 172-175). -/
def matchesOf (text : String) : List String :=
  let m1 := findAllRecMarker text
  if m1.isEmpty then findAllRecMarkerMultiline text else m1

/-- The state after the bare-id scan (run only when there is no marker
match): `found_ids` folded through the id loop, starting from the empty
state. -/
def bareIdState (text : String) (acts : List Actividad) : ExtractState :=
  (findAllActivityIds text).foldl (idStep acts (actividad_ids_set acts)) ⟨[], []⟩

/-- The state before the marker-object loop: when there is no marker
match, the bare-id scan runs, and the title fallback only when the bare-id
scan found no id at all and nothing was accepted (nlp_core.py line 203);
when there are matches, the fallback stages are skipped entirely. -/
def preJsonState (text : String) (acts : List Actividad) : ExtractState :=
  if (matchesOf text).isEmpty then
    if (findAllActivityIds text).isEmpty &&
        (bareIdState text acts).recommendations.isEmpty then
      titleScan text (bareIdState text acts) acts
    else bareIdState text acts
  else ⟨[], []⟩

/-- The extraction state after all stages: the marker-object loop folded
over `matchesOf` (a no-op when there is no match). -/
def extractFinalState (text : String) (acts : List Actividad) : ExtractState :=
  (matchesOf text).foldl (jsonStep acts (actividad_ids_set acts))
    (preJsonState text acts)

/-- The list of accepted records, in acceptance order, before the final
sort. -/
def extractAccepted (text : String) (acts : List Actividad) : List Recomendacion :=
  (extractFinalState text acts).recommendations

/-! ### The final sort

`recommendations.sort(key=lambda x: x.get("puntuacion", 0.0), reverse=True)`
is a stable descending sort by the score value.  Python's `sort` raises
`TypeError` as soon as it compares two keys of incomparable types, and a
list containing two elements of incomparable types cannot be sorted without
comparing them; mixed-key lists therefore raise, totally-comparable lists
sort stably.  The embedding returns `none` for the raising case. -/

mutual
/-- Python `<` on JSON-decoded values, as a total function; `jLt a b` is
only meaningful when `jComparable a b`. -/
def jLt : JVal → JVal → Bool
  | .jbool x, .jbool y => numLt (boolNum x) (boolNum y)
  | .jbool x, .jnum q => numLt (boolNum x) q
  | .jnum q, .jbool y => numLt q (boolNum y)
  | .jnum p, .jnum q => numLt p q
  | .jstr s, .jstr t => pyStrLt s t
  | .jarr xs, .jarr ys => jarrLt xs ys
  | _, _ => false

def jarrLt : List JVal → List JVal → Bool
  | [], [] => false
  | [], _ :: _ => true
  | _ :: _, [] => false
  | x :: xs, y :: ys => if pyEq x y then jarrLt xs ys else jLt x y
end

mutual
/-- Are two Python values comparable by `<` without a `TypeError`?
Numbers (booleans included) compare with numbers, strings with strings,
lists elementwise up to the first difference; everything else
(in particular `None` with anything, `None` included) raises. -/
def jComparable : JVal → JVal → Bool
  | .jbool _, .jbool _ => true
  | .jbool _, .jnum _ => true
  | .jnum _, .jbool _ => true
  | .jnum _, .jnum _ => true
  | .jstr _, .jstr _ => true
  | .jarr xs, .jarr ys => jarrComparable xs ys
  | _, _ => false

def jarrComparable : List JVal → List JVal → Bool
  | [], _ => true
  | _ :: _, [] => true
  | x :: xs, y :: ys => if pyEq x y then jarrComparable xs ys else jComparable x y
end

/-- Are all the values in the list pairwise comparable? -/
def allComparable : List JVal → Bool
  | [] => true
  | x :: xs => xs.all (jComparable x) && allComparable xs

/-- Sort-key order for the final sort: `a` goes before `b` when the key of
`a` is not smaller (stable descending order). -/
def keyGE (a b : Recomendacion) : Bool := !jLt a.puntuacion b.puntuacion

/-- Insert an element into a descending-sorted list, after every element
whose key is not smaller (so equal keys keep insertion order). -/
def ordIns (a : Recomendacion) : List Recomendacion → List Recomendacion
  | [] => [a]
  | b :: l => if keyGE a b then a :: b :: l else b :: ordIns a l

/-- Stable descending sort by score (the head is inserted last, so
elements with equal keys keep their original relative order). -/
def sortByScoreDesc : List Recomendacion → List Recomendacion
  | [] => []
  | a :: l => ordIns a (sortByScoreDesc l)

/-- `NLPModule._extract_recommendations`: run the cascade, then sort by
score descending; `none` models the `TypeError` that the final `sort`
raises on keys of incomparable types (propagated to the caller, where
`generate_recommendations` catches it). -/
def extract_recommendations (text : String) (acts : List Actividad) :
    Option (List Recomendacion) :=
  if allComparable ((extractAccepted text acts).map (·.puntuacion)) then
    some (sortByScoreDesc (extractAccepted text acts))
  else none

/-! ### GeminiManager: remote model-selection policy
(src/ai/nlp/gemini_manager.py lines 44-123) -/

def excluded_keywords : List String :=
  ["embedding", "imagen", "veo", "gemma", "aqa", "learnlm",
   "computer-use", "robotics", "audio", "live", "thinking",
   "tts", "image-generation"]

/-- `str.lower()` (ASCII case folding). -/
def lowerStr (s : String) : String := String.mk (s.data.map Char.toLower)

/-- `kw in name.lower()`. -/
def hasKw (name kw : String) : Bool := strContains (lowerStr name) kw

/-- The denylist filter: keep identifiers starting with `models/gemini-`
whose lowercased name contains none of the excluded keywords. -/
def valid_models (names : List String) : List String :=
  names.filter fun n =>
    pyStartsWith n "models/gemini-" &&
    !(excluded_keywords.any fun k => hasKw n k)

/-- The priority-tier selection over the surviving identifiers
(first match of each tier, in list order): (1) flash + latest,
(2) flash stable (no preview, no latest), (3) pro + latest, (4) any flash,
(5) any pro, (6) the first survivor. -/
def selectGeminiModel (names : List String) : Option String :=
  let v := valid_models names
  match v.find? (fun m => hasKw m "flash" && hasKw m "latest") with
  | some m => some m
  | none =>
    match v.find? (fun m => hasKw m "flash" && !hasKw m "preview" && !hasKw m "latest") with
    | some m => some m
    | none =>
      match v.find? (fun m => hasKw m "pro" && hasKw m "latest") with
      | some m => some m
      | none =>
        match v.find? (fun m => hasKw m "flash") with
        | some m => some m
        | none =>
          match v.find? (fun m => hasKw m "pro") with
          | some m => some m
          | none => v.head?

/-- Outcome of `GeminiManager.__init__` when the API key is configured and
model listing succeeded: the selected model replaces the configured name
when the policy finds one, otherwise the configured name is kept; in both
cases `_online` is set to `True` afterwards (lines 112-123). -/
def geminiModelAfterInit (configured : String) (names : List String) :
    String × Bool :=
  match selectGeminiModel names with
  | some m => (m, true)
  | none => (configured, true)

/-! ### OllamaManager: daemon bootstrap
(src/ai/nlp/ollama_manager.py lines 33-76) -/

/-- Outcome of one `client.list()` health probe: success, an
`ollama.ResponseError` (retried inside the loop), or any other exception
(which escapes the loop into the outer handler). -/
inductive ProbeResult where
  | ok : ProbeResult
  | respError : ProbeResult
  | failure : ProbeResult
deriving DecidableEq, Repr

/-- The `for attempt in range(retries)` polling loop: each attempt probes
once; success returns online, a `ResponseError` sleeps `delay` seconds and
retries, any other exception aborts (caught by the outer handler, leaving
`_online = False`).  Returns (online, probe attempts used, seconds slept). -/
def pollHealth (probes : Nat → ProbeResult) (delay : Nat) :
    Nat → Nat → Bool × Nat × Nat
  | 0, _ => (false, 0, 0)
  | n + 1, i =>
    match probes i with
    | .ok => (true, 1, 0)
    | .respError =>
      let r := pollHealth probes delay n (i + 1)
      (r.1, r.2.1 + 1, r.2.2 + delay)
    | .failure => (false, 1, 0)

/-- `OllamaManager._start_ollama_server(retries=30, delay=1)`: probe once
before spawning (already-running server short-circuits); otherwise spawn
the daemon (`spawnOk` false models `FileNotFoundError`) and poll the
health endpoint under the retry budget.  Returns (online, polling attempts
used, seconds slept). -/
def start_ollama_server (pre : ProbeResult) (spawnOk : Bool)
    (probes : Nat → ProbeResult) (retries delay : Nat) : Bool × Nat × Nat :=
  match pre with
  | .ok => (true, 0, 0)
  | _ => if spawnOk then pollHealth probes delay retries 0 else (false, 0, 0)

/-! ### NLPModule.generate_recommendations
(src/ai/nlp/nlp_core.py lines 53-153) -/

inductive GenEvent where
  | buildPrompts : GenEvent
  | callBackend : GenEvent
deriving DecidableEq, Repr

inductive GenResult where
  | errorResult (msg : String) : GenResult
  | okResult (recomendaciones : List Recomendacion) (response_text : String) : GenResult
deriving Repr

def msgOffline : String := "El módulo NLP está fuera de línea"
def msgNoActs : String := "No hay actividades disponibles"
def msgEmptyReply : String := "Error al generar respuesta con Groq (respuesta vacía)"
def msgCoroutine : String :=
  "Error al generar recomendaciones: TypeError (coroutine object is not subscriptable)"
def msgSortError : String := "Error al generar recomendaciones: TypeError"

/-- `NLPModule.generate_recommendations`, as written: the offline check
comes first (returning an error with no prompt construction and no backend
call), the empty-candidates check second.  On the main path the call
`self._groq_manager.generate_content(full_prompt)` at line 124 is missing
an `await`: `full_response_content` is a coroutine object, which is truthy
(so the empty-reply check passes), and the slice
`full_response_content[:500]` inside the logging f-string at line 133
raises `TypeError`, converted by the `except` block into an error result.
The eventual backend reply (`reply`) is therefore never consulted.  The
first component records which effects happened. -/
def generate_recommendations (online : Bool) (acts : List Actividad)
    (reply : Option String) : List GenEvent × GenResult :=
  if !online then ([], .errorResult msgOffline)
  else if acts.isEmpty then ([], .errorResult msgNoActs)
  else ([.buildPrompts, .callBackend], .errorResult msgCoroutine)

/-- Modelled from the spec: `generate_recommendations` as specified in
section 4.4, that is with the missing `await` at nlp_core.py line 124
restored.  The backend reply is awaited; a `None` or empty reply is the
empty-reply error; otherwise the extractor output is returned as a success
together with the raw reply text (an extractor `TypeError` is caught by
the same `except` block). -/
def generate_recommendations_awaited (online : Bool) (acts : List Actividad)
    (reply : Option String) : GenResult :=
  if !online then .errorResult msgOffline
  else if acts.isEmpty then .errorResult msgNoActs
  else
    match reply with
    | none => .errorResult msgEmptyReply
    | some t =>
      if t.isEmpty then .errorResult msgEmptyReply
      else
        match extract_recommendations t acts with
        | some recs => .okResult recs t
        | none => .errorResult msgSortError

/-! ### json.dumps (ensure_ascii=False), compact and indent=2 variants -/

def hexDigitChar (n : Nat) : Char :=
  if n < 10 then Char.ofNat (48 + n) else Char.ofNat (87 + n)

/-- Escape one character as `json.dumps(..., ensure_ascii=False)` does. -/
def escJChar (c : Char) : String :=
  if c = '"' then "\\\""
  else if c = '\\' then "\\\\"
  else if c = '\n' then "\\n"
  else if c = '\t' then "\\t"
  else if c = '\r' then "\\r"
  else if c = '\x08' then "\\b"
  else if c = '\x0c' then "\\f"
  else if c.toNat < 32 then
    "\\u00" ++ String.mk [hexDigitChar (c.toNat / 16), hexDigitChar (c.toNat % 16)]
  else String.singleton c

def escJString (s : String) : String :=
  "\"" ++ String.join (s.data.map escJChar) ++ "\""

/-- Decimal representation of a JSON number: integers print as Python
ints, fractional values with an inserted decimal point (mant 8, exp10 1
prints as `0.8`). -/
def numRepr (v : NumV) : String :=
  if v.exp10 = 0 then toString v.mant
  else
    let s := toString v.mant.natAbs
    let ds := if s.length ≤ v.exp10 then
        List.replicate (v.exp10 + 1 - s.length) '0' ++ s.data
      else s.data
    (if v.mant < 0 then "-" else "") ++ String.mk (ds.take (ds.length - v.exp10)) ++
      "." ++ String.mk (ds.drop (ds.length - v.exp10))

mutual
/-- `json.dumps(v, ensure_ascii=False)` with the default separators. -/
def jdumps : JVal → String
  | .jnull => "null"
  | .jbool true => "true"
  | .jbool false => "false"
  | .jnum q => numRepr q
  | .jstr s => escJString s
  | .jarr xs => "[" ++ jdumpsList xs ++ "]"
  | .jobj fs => "\x7b" ++ jdumpsFields fs ++ "\x7d"

def jdumpsList : List JVal → String
  | [] => ""
  | [x] => jdumps x
  | x :: y :: t => jdumps x ++ ", " ++ jdumpsList (y :: t)

def jdumpsFields : List (String × JVal) → String
  | [] => ""
  | [(k, v)] => escJString k ++ ": " ++ jdumps v
  | (k, v) :: p :: t => escJString k ++ ": " ++ jdumps v ++ ", " ++ jdumpsFields (p :: t)
end

def indentSp (lvl : Nat) : String := String.mk (List.replicate (2 * lvl) ' ')

mutual
/-- `json.dumps(v, ensure_ascii=False, indent=2)` at nesting level `lvl`. -/
def jdumpsInd (lvl : Nat) : JVal → String
  | .jnull => "null"
  | .jbool true => "true"
  | .jbool false => "false"
  | .jnum q => numRepr q
  | .jstr s => escJString s
  | .jarr [] => "[]"
  | .jarr (x :: t) =>
    "[\n" ++ indentSp (lvl + 1) ++ jdumpsIndList (lvl + 1) (x :: t) ++
      "\n" ++ indentSp lvl ++ "]"
  | .jobj [] => "\x7b\x7d"
  | .jobj (p :: t) =>
    "\x7b\n" ++ indentSp (lvl + 1) ++ jdumpsIndFields (lvl + 1) (p :: t) ++
      "\n" ++ indentSp lvl ++ "\x7d"

def jdumpsIndList (lvl : Nat) : List JVal → String
  | [] => ""
  | [x] => jdumpsInd lvl x
  | x :: y :: t => jdumpsInd lvl x ++ ",\n" ++ indentSp lvl ++ jdumpsIndList lvl (y :: t)

def jdumpsIndFields (lvl : Nat) : List (String × JVal) → String
  | [] => ""
  | [(k, v)] => escJString k ++ ": " ++ jdumpsInd lvl v
  | (k, v) :: p :: t =>
    escJString k ++ ": " ++ jdumpsInd lvl v ++ ",\n" ++ indentSp lvl ++
      jdumpsIndFields lvl (p :: t)
end

/-! ### Prompt assembly (src/ai/nlp/prompt_creator.py) -/

/-- A user preference, shaped like the dictionaries built in
`api/routes.py` (keys `categoria`, `nivel_interes`). -/
structure Preferencia where
  categoria : String
  nivel_interes : Option Int
deriving Repr, DecidableEq

def optIntJ : Option Int → JVal
  | none => .jnull
  | some i => .jnum (NumV.ofInt i)

def optStrJ : Option String → JVal
  | none => .jnull
  | some s => .jstr s

def Preferencia.toJVal (p : Preferencia) : JVal :=
  .jobj [("categoria", .jstr p.categoria), ("nivel_interes", optIntJ p.nivel_interes)]

/-- The candidate dictionary as a JSON value (keys in the insertion order
of `api/routes.py`). -/
def Actividad.toJVal (a : Actividad) : JVal :=
  .jobj [("id", optIntJ a.id), ("categoria", optStrJ a.categoria),
         ("titulo", optStrJ a.titulo), ("descripcion", optStrJ a.descripcion),
         ("fecha", optStrJ a.fecha), ("lugar", optStrJ a.lugar),
         ("nivel_sostenibilidad", optIntJ a.nivel_sostenibilidad)]

/-- Serialization of a candidate list with `json.dumps(..., ensure_ascii=False)`. -/
def dumpActividades (acts : List Actividad) : String :=
  jdumps (.jarr (acts.map Actividad.toJVal))

/-- Serialization of a candidate list with indent=2. -/
def dumpActividadesInd (acts : List Actividad) : String :=
  jdumpsInd 0 (.jarr (acts.map Actividad.toJVal))

/-- Truthiness of an optional string (`if hobbies:`). -/
def optTruthy : Option String → Bool
  | none => false
  | some s => !s.isEmpty

/-- `s.split(',')`. -/
def splitComma (s : String) : List String := s.splitOn ","

/-- `s.split()`: split on whitespace runs, dropping empty pieces. -/
def splitWs (s : String) : List String :=
  (s.split pyWsChar).filter (fun p => !p.isEmpty)

/-- The keyword list of `create_recommendation_prompt` (lines 84-92):
lowered hobby/interest text split on commas and on whitespace, each token
stripped, tokens of length ≤ 2 discarded, capped at 20, joined with
`", "`, or `"ninguna"` when empty. -/
def keywordsStr (hobbies intereses : Option String) : String :=
  let base : List String :=
    (if optTruthy hobbies then
      splitComma (lowerStr ((hobbies.getD "")) ) ++ splitWs (lowerStr (hobbies.getD ""))
     else []) ++
    (if optTruthy intereses then
      splitComma (lowerStr (intereses.getD "")) ++ splitWs (lowerStr (intereses.getD ""))
     else [])
  let kws := (base.filter (fun k => (pyStrip k).length > 2)).map pyStrip
  if kws.isEmpty then "ninguna" else String.intercalate ", " (kws.take 20)

def hobbiesInfo (hobbies : Option String) : String :=
  if optTruthy hobbies then "Hobbies del usuario: " ++ hobbies.getD ""
  else "Hobbies: No especificados"

def interesesInfo (intereses : Option String) : String :=
  if optTruthy intereses then "Intereses del usuario: " ++ intereses.getD ""
  else "Intereses: No especificados"

def promptHeader : String :=
  "Basándote en las preferencias, hobbies, intereses del usuario y las actividades disponibles, genera recomendaciones personalizadas.\n\nPreferencias del usuario: "

def promptSchemaBlock : String :=
  "\n\nPALABRAS CLAVE DEL USUARIO PARA MATCHING: "

def promptSchemaRest : String :=
  "\n**IMPORTANTE**: Busca estas palabras clave en el título, descripción y categoría de las actividades. Por ejemplo:\n- Si el usuario tiene \"Deporte\" en hobbies → busca actividades con categoría \"deportiva\" o palabras relacionadas\n- Si el usuario tiene \"Arte\" en intereses → busca actividades con \"arte\", \"artística\", \"cultural\" en categoría/título\n\nACTIVIDADES DISPONIBLES (SCHEMA):\nCada actividad tiene esta estructura:\n- \"id\": número entero (ÚSALO en actividad_id)\n- \"categoria\": string (ej: \"deportiva\", \"cultural\", \"ambiental\")\n- \"titulo\": string\n- \"descripcion\": string o null\n- \"fecha\": string (YYYY-MM-DD)\n- \"lugar\": string\n- \"nivel_sostenibilidad\": número (0-5) o null\n\nActividades disponibles: "

def promptRules : String :=
  "\n\nREGLAS CRÍTICAS:\n1. Usa SOLO los IDs que existen en la lista de actividades disponibles (verifica que el ID existe antes de usarlo)\n2. El campo \"id\" de cada actividad es el que debes usar en \"actividad_id\" del JSON\n3. **PRIORIDAD DE MATCHING**: Busca actividades que COINCIDAN con los hobbies e intereses del usuario:\n   - Si el usuario tiene \"Futbol\" o \"Deporte\" → busca categoría \"deportiva\"\n   - Si el usuario tiene \"Arte\" o \"Danza\" → busca categoría \"artistica\" o \"cultural\"\n   - Si el usuario tiene \"Música\" → busca actividades de música o categoría \"artistica\"\n4. **REGLA IMPORTANTE - SI HAY COINCIDENCIAS**: Si encuentras actividades que coinciden con los hobbies/intereses:\n   - Recomienda SOLAMENTE esas actividades con puntuación alta (0.8-0.95)\n   - NO incluyas actividades de otras categorías\n   - Ejemplo: Si el usuario le gusta \"Futbol\" y hay una actividad deportiva, SOLO recomienda esa\n5. **SOLO SI NO HAY COINCIDENCIAS**: ÚNICAMENTE si NO hay NINGUNA actividad que coincida:\n   - Primero di: \"Actualmente no hay actividades de [categoría del usuario] disponibles.\"\n   - Luego agrega: \"Sin embargo, te invitamos a participar en estas otras actividades mientras tanto:\"\n   - Recomienda las alternativas con puntuación baja (0.4-0.5)\n6. NUNCA mezcles actividades que coinciden con alternativas - es una cosa o la otra\n\n"

def promptFormatBlock : String :=
  "FORMATO DE RESPUESTA OBLIGATORIO (DEBES SEGUIRLO EXACTAMENTE):\n\nINSTRUCCIONES CRÍTICAS:\n1. DEBES incluir SIEMPRE el marcador GENERAR_RECOMENDACION_JSON: después de cada actividad que recomiendes\n2. El formato es OBLIGATORIO - sin el JSON, la recomendación no será procesada\n3. Para cada recomendación (máximo 5), usa este formato EXACTO:\n\n**Actividad:** [título de la actividad]\n**Categoría:** [categoría]\n[tu texto descriptivo aquí]\n---\nGENERAR_RECOMENDACION_JSON: \x7b\"actividad_id\": [número del campo \"id\"], \"razon\": \"[razón breve]\", \"puntuacion\": 0.8\x7d\n\nEJEMPLO COMPLETO CORRECTO:\n**Actividad:** Campeonato de Futbol 2\n**Categoría:** deportiva\nEsta actividad es ideal para ti porque coincide con tu interés en deportes.\n---\nGENERAR_RECOMENDACION_JSON: \x7b\"actividad_id\": 2, \"razon\": \"Coincide con tu hobby de Deporte\", \"puntuacion\": 0.9\x7d\n\nREGLAS ABSOLUTAS:\n- actividad_id DEBE ser el número exacto del campo \"id\" de una actividad de la lista de actividades disponibles\n- DEBES incluir \"GENERAR_RECOMENDACION_JSON:\" en cada recomendación (sin esto, NO funcionará)\n- NO uses bloques de código ```json``` ni ``` - escribe el JSON directamente\n- El JSON debe estar en UNA LÍNEA después del marcador\n- Verifica que el ID existe en la lista antes de usarlo\n- Si no incluyes el JSON, la recomendación será IGNORADA"

/-- `create_recommendation_prompt` (prompt_creator.py lines 60-169): the
user prompt, with the candidate catalog capped at its first 30 entries
(line 115). -/
def create_recommendation_prompt (user_query : String)
    (preferencias : List Preferencia) (actividades_disponibles : List Actividad)
    (historial_participacion : List JVal) (hobbies intereses : Option String) :
    String :=
  promptHeader ++ jdumps (.jarr (preferencias.map Preferencia.toJVal)) ++
    "\n" ++ hobbiesInfo hobbies ++ "\n" ++ interesesInfo intereses ++
    promptSchemaBlock ++ keywordsStr hobbies intereses ++ promptSchemaRest ++
    dumpActividades (actividades_disponibles.take 30) ++
    "\n\nHistorial de participación: " ++ jdumps (.jarr historial_participacion) ++
    promptRules ++
    (if !user_query.isEmpty then "Consulta del usuario: " ++ user_query ++ "\n\n" else "") ++
    promptFormatBlock

/-- The placeholders that `create_system_prompt` supplies to
`template.format`. -/
inductive TVar where
  | assistant_name | language | usuario_id | preferencias
  | actividades_disponibles | historial_participacion
  | hobbies | intereses | fecha_actual
deriving DecidableEq, Repr

/-- One piece of a format template: literal text or a placeholder. -/
inductive TPart where
  | lit (s : String) : TPart
  | var (v : TVar) : TPart

/-- `template.format(...)`: concatenate, substituting placeholders. -/
def formatTemplate : List TPart → (TVar → String) → String
  | [], _ => ""
  | .lit s :: t, f => s ++ formatTemplate t f
  | .var v :: t, f => f v ++ formatTemplate t f

/-- The `assistant_name` / `language` configuration entries read with
`config.get`. -/
structure PromptConfig where
  assistant_name : Option String
  language : Option String

/-- The values `create_system_prompt` substitutes for each placeholder
(prompt_creator.py lines 31-56): the candidate catalog is capped at its
first 30 entries (line 35) before the indent=2 serialization (line 36). -/
def systemPromptSubst (config : PromptConfig) (usuario_id : Int)
    (preferencias : List Preferencia)
    (actividades_disponibles : List Actividad)
    (historial_participacion : List JVal) (hobbies intereses : Option String)
    (fecha_actual : String) : TVar → String
  | .assistant_name => config.assistant_name.getD "SmartCampus Assistant"
  | .language => config.language.getD "es"
  | .usuario_id => toString usuario_id
  | .preferencias =>
    if preferencias.isEmpty then "Ninguna preferencia registrada"
    else jdumpsInd 0 (.jarr (preferencias.map Preferencia.toJVal))
  | .actividades_disponibles => dumpActividadesInd (actividades_disponibles.take 30)
  | .historial_participacion =>
    if historial_participacion.isEmpty then "Sin historial previo"
    else jdumpsInd 0 (.jarr historial_participacion)
  | .hobbies => if optTruthy hobbies then hobbies.getD "" else "No especificados"
  | .intereses => if optTruthy intereses then intereses.getD "" else "No especificados"
  | .fecha_actual => fecha_actual

/-- `create_system_prompt` (prompt_creator.py lines 5-58).  Modelled from
the spec for the template itself: the YAML template resource (ordered
named sections plus optional footer, loaded by `prompt_loader.py`) is not
among the sources, so a template is an arbitrary interleaving of literal
text and the nine placeholders the source supplies to `str.format`. -/
def create_system_prompt (template : List TPart) (config : PromptConfig)
    (usuario_id : Int) (preferencias : List Preferencia)
    (actividades_disponibles : List Actividad)
    (historial_participacion : List JVal) (hobbies intereses : Option String)
    (fecha_actual : String) : String :=
  formatTemplate template
    (systemPromptSubst config usuario_id preferencias actividades_disponibles
      historial_participacion hobbies intereses fecha_actual)

/-! ### Lemmas: numeric behaviour of Python equality -/

theorem pow10_ne_zero (n : Nat) : ((10 : ℚ) ^ n) ≠ 0 :=
  pow_ne_zero n (by norm_num)

theorem pow10_pos (n : Nat) : (0 : ℚ) < (10 : ℚ) ^ n :=
  pow_pos (by norm_num) n

theorem numEq_iff {a b : NumV} : numEq a b = true ↔ a.toQ = b.toQ := by
  unfold numEq NumV.toQ
  rw [beq_iff_eq, div_eq_div_iff (pow10_ne_zero _) (pow10_ne_zero _)]
  constructor
  · intro h; exact_mod_cast h
  · intro h; exact_mod_cast h

theorem numLt_eq (a b : NumV) : numLt a b = decide (a.toQ < b.toQ) := by
  unfold numLt NumV.toQ
  rw [decide_eq_decide, div_lt_div_iff₀ (pow10_pos _) (pow10_pos _)]
  constructor
  · intro h; exact_mod_cast h
  · intro h; exact_mod_cast h

theorem boolNum_toQ (b : Bool) : (boolNum b).toQ = if b then 1 else 0 := by
  cases b <;> simp [boolNum, NumV.toQ]

theorem ofInt_toQ (i : Int) : (NumV.ofInt i).toQ = (i : ℚ) := by
  simp [NumV.ofInt, NumV.toQ]

theorem pyNum_ofInt (i : Int) :
    pyNum (.jnum (NumV.ofInt i)) = some (i : ℚ) := by
  simp [pyNum, ofInt_toQ]

theorem pyEq_jnum_right (v : JVal) (w : NumV) :
    pyEq v (.jnum w) = true ↔ pyNum v = some w.toQ := by
  cases v with
  | jbool b =>
    show numEq (boolNum b) w = true ↔ _
    rw [numEq_iff, boolNum_toQ]
    simp [pyNum]
  | jnum u =>
    show numEq u w = true ↔ _
    rw [numEq_iff]
    simp [pyNum]
  | jnull => simp [pyEq, pyNum]
  | jstr s => simp [pyEq, pyNum]
  | jarr l => simp [pyEq, pyNum]
  | jobj l => simp [pyEq, pyNum]

theorem pyEq_of_nums {a b : JVal} {x : ℚ} (ha : pyNum a = some x)
    (hb : pyNum b = some x) : pyEq a b = true := by
  cases a <;> cases b <;>
    simp_all [pyNum, pyEq, numEq_iff, boolNum_toQ]
  rename_i p q
  cases p <;> cases q <;> simp_all <;> linarith

theorem memIdSet_iff (v : JVal) (s : List Int) :
    memIdSet v s = true ↔ ∃ i ∈ s, pyNum v = some (i : ℚ) := by
  simp [memIdSet, List.any_eq_true, pyEq_jnum_right, ofInt_toQ]

theorem id_filter_eq {oid : Option Int} {i : Int} :
    (match oid with
     | some j => if j = 0 then none else some j
     | none => none) = some i ↔ oid = some i ∧ i ≠ 0 := by
  cases oid with
  | none => simp
  | some j => by_cases hj : j = 0 <;> simp [hj] <;> try aesop

theorem mem_actividad_ids_set {acts : List Actividad} {i : Int} :
    i ∈ actividad_ids_set acts ↔ ∃ a ∈ acts, a.id = some i ∧ i ≠ 0 := by
  simp only [actividad_ids_set, List.mem_filterMap, id_filter_eq]

/-! ### Lemmas: the extraction-state invariant -/

/-- The id of an accepted record is numerically the (truthy) id of some
candidate. -/
def IdOKAcc (acts : List Actividad) (r : Recomendacion) : Prop :=
  ∃ a ∈ acts, ∃ i : Int, a.id = some i ∧ i ≠ 0 ∧
    pyNum r.actividad_id = some (i : ℚ)

/-- Invariant of the extraction loops: processed ids mirror the accepted
records, every accepted id is a truthy candidate id, and accepted ids are
pairwise numerically distinct. -/
def StInv (acts : List Actividad) (s : ExtractState) : Prop :=
  s.processed_ids = s.recommendations.map (·.actividad_id) ∧
  (∀ r ∈ s.recommendations, IdOKAcc acts r) ∧
  s.recommendations.Pairwise
    (fun r t => pyNum r.actividad_id ≠ pyNum t.actividad_id)

theorem stInv_nil (acts : List Actividad) : StInv acts ⟨[], []⟩ :=
  ⟨rfl, by simp, by simp⟩

theorem memProcessed_fresh {aid : JVal} {x : ℚ} (hx : pyNum aid = some x)
    {recs : List Recomendacion}
    (h : memProcessed aid (recs.map (·.actividad_id)) = false) :
    ∀ r ∈ recs, pyNum r.actividad_id ≠ some x := by
  intro r hr heq
  have : memProcessed aid (recs.map (·.actividad_id)) = true := by
    simp only [memProcessed, List.any_eq_true]
    exact ⟨r.actividad_id, List.mem_map_of_mem _ hr, pyEq_of_nums hx heq⟩
  simp [this] at h

theorem stInv_append {acts : List Actividad} {s : ExtractState}
    {r : Recomendacion} (h : StInv acts s) (hok : IdOKAcc acts r)
    (hfresh : ∀ r' ∈ s.recommendations,
      pyNum r'.actividad_id ≠ pyNum r.actividad_id) :
    StInv acts ⟨s.recommendations ++ [r], s.processed_ids ++ [r.actividad_id]⟩ := by
  obtain ⟨hcoup, hall, hpw⟩ := h
  refine ⟨by simp [hcoup], ?_, ?_⟩
  · intro t ht
    rcases List.mem_append.1 ht with ht | ht
    · exact hall t ht
    · simp at ht; subst ht; exact hok
  · rw [List.pairwise_append]
    refine ⟨hpw, by simp, ?_⟩
    intro a ha b hb
    simp at hb; subst hb
    exact hfresh a ha

theorem idStep_inv {acts : List Actividad} {s : ExtractState} {ds : String}
    (h : StInv acts s) :
    StInv acts (idStep acts (actividad_ids_set acts) s ds) := by
  unfold idStep
  by_cases hc :
      (memIdSet (.jnum (NumV.ofInt (pyInt ds))) (actividad_ids_set acts) &&
        !memProcessed (.jnum (NumV.ofInt (pyInt ds))) s.processed_ids) = true
  · rw [if_pos hc]
    rw [Bool.and_eq_true] at hc
    obtain ⟨hmem, hproc⟩ := hc
    rw [Bool.not_eq_true'] at hproc
    cases hfind : findActividad acts (.jnum (NumV.ofInt (pyInt ds))) with
    | none => simp only [hfind]; exact h
    | some act =>
      simp only [hfind]
      obtain ⟨i, hiSet, hnum⟩ := (memIdSet_iff _ _).mp hmem
      obtain ⟨a, hamem, haid, hne⟩ := mem_actividad_ids_set.mp hiSet
      exact stInv_append h ⟨a, hamem, i, haid, hne, hnum⟩
        (fun r' hr' => by
          rw [hnum]
          exact memProcessed_fresh hnum (h.1 ▸ hproc) r' hr')
  · rw [if_neg hc]; exact h

theorem titleScan_inv {acts : List Actividad} (text : String) :
    ∀ (l : List Actividad), (∀ a ∈ l, a ∈ acts) →
      ∀ s, StInv acts s → StInv acts (titleScan text s l) := by
  intro l
  induction l with
  | nil => intro _ s h; exact h
  | cons act rest ih =>
    intro hsub s h
    unfold titleScan
    by_cases h1 : (!(pyStrip (act.titulo.getD "")).isEmpty &&
        decide ((pyStrip (act.titulo.getD "")).length > 3) &&
        strContains text (pyStrip (act.titulo.getD ""))) = true
    · rw [if_pos h1]
      cases hid : act.id with
      | none => exact ih (fun a ha => hsub a (List.mem_cons_of_mem _ ha)) s h
      | some i =>
        dsimp only
        by_cases h2 : (decide (i ≠ 0) &&
            !memProcessed (.jnum (NumV.ofInt i)) s.processed_ids) = true
        · rw [if_pos h2]
          rw [Bool.and_eq_true] at h2
          obtain ⟨hne, hproc⟩ := h2
          rw [Bool.not_eq_true'] at hproc
          have hne' : i ≠ 0 := of_decide_eq_true hne
          have hnum : pyNum (.jnum (NumV.ofInt i)) = some (i : ℚ) := pyNum_ofInt i
          exact stInv_append h
            ⟨act, hsub act (List.mem_cons_self act rest), i, hid, hne', pyNum_ofInt i⟩
            (fun r' hr' => by
              show pyNum r'.actividad_id ≠ pyNum (.jnum (NumV.ofInt i))
              rw [hnum]
              exact memProcessed_fresh hnum (h.1 ▸ hproc) r' hr')
        · rw [if_neg h2]
          exact ih (fun a ha => hsub a (List.mem_cons_of_mem _ ha)) s h
    · rw [if_neg h1]
      exact ih (fun a ha => hsub a (List.mem_cons_of_mem _ ha)) s h

theorem jsonStep_inv {acts : List Actividad} {s : ExtractState} {m : String}
    (h : StInv acts s) :
    StInv acts (jsonStep acts (actividad_ids_set acts) s m) := by
  unfold jsonStep
  cases hj : json_loads (pyStrip (removeNewlines m)) with
  | some v =>
    cases v with
    | jobj data =>
      simp only [hj]
      by_cases hc : (pyTruthy (jget data "actividad_id") &&
          memIdSet (jget data "actividad_id") (actividad_ids_set acts) &&
          !memProcessed (jget data "actividad_id") s.processed_ids) = true
      · rw [if_pos hc]
        rw [Bool.and_eq_true, Bool.and_eq_true] at hc
        obtain ⟨⟨_, hmem⟩, hproc⟩ := hc
        rw [Bool.not_eq_true'] at hproc
        cases hfind : findActividad acts (jget data "actividad_id") with
        | none => simp only [hfind]; exact h
        | some act =>
          simp only [hfind]
          obtain ⟨i, hiSet, hnum⟩ := (memIdSet_iff _ _).mp hmem
          obtain ⟨a, hamem, haid, hne⟩ := mem_actividad_ids_set.mp hiSet
          exact stInv_append h ⟨a, hamem, i, haid, hne, hnum⟩
            (fun r' hr' => by
              show pyNum r'.actividad_id ≠ pyNum (jget data "actividad_id")
              rw [hnum]
              exact memProcessed_fresh hnum (h.1 ▸ hproc) r' hr')
      · rw [if_neg hc]; exact h
    | jnull => simp only [hj]; exact h
    | jbool b => simp only [hj]; exact h
    | jnum q => simp only [hj]; exact h
    | jstr t => simp only [hj]; exact h
    | jarr xs => simp only [hj]; exact h
  | none =>
    simp only [hj]
    cases hs : searchActivityId m with
    | none => exact h
    | some ds =>
      simp only [hs]
      by_cases hc :
          (memIdSet (.jnum (NumV.ofInt (pyInt ds))) (actividad_ids_set acts) &&
            !memProcessed (.jnum (NumV.ofInt (pyInt ds))) s.processed_ids) = true
      · rw [if_pos hc]
        rw [Bool.and_eq_true] at hc
        obtain ⟨hmem, hproc⟩ := hc
        rw [Bool.not_eq_true'] at hproc
        cases hfind : findActividad acts (.jnum (NumV.ofInt (pyInt ds))) with
        | none => simp only [hfind]; exact h
        | some act =>
          simp only [hfind]
          obtain ⟨i, hiSet, hnum⟩ := (memIdSet_iff _ _).mp hmem
          obtain ⟨a, hamem, haid, hne⟩ := mem_actividad_ids_set.mp hiSet
          exact stInv_append h ⟨a, hamem, i, haid, hne, hnum⟩
            (fun r' hr' => by
              rw [hnum]
              exact memProcessed_fresh hnum (h.1 ▸ hproc) r' hr')
      · rw [if_neg hc]; exact h

theorem foldl_pres {σ α : Type _} {P : σ → Prop} {f : σ → α → σ}
    (hf : ∀ s a, P s → P (f s a)) :
    ∀ (l : List α) (s), P s → P (l.foldl f s) := by
  intro l
  induction l with
  | nil => intro s h; exact h
  | cons x t ih => intro s h; exact ih _ (hf s x h)

theorem bareIdState_inv (text : String) (acts : List Actividad) :
    StInv acts (bareIdState text acts) :=
  foldl_pres (fun _ _ h => idStep_inv h) _ _ (stInv_nil acts)

theorem preJsonState_inv (text : String) (acts : List Actividad) :
    StInv acts (preJsonState text acts) := by
  unfold preJsonState
  by_cases h1 : (matchesOf text).isEmpty = true
  · rw [if_pos h1]
    by_cases h2 : ((findAllActivityIds text).isEmpty &&
        (bareIdState text acts).recommendations.isEmpty) = true
    · rw [if_pos h2]
      exact titleScan_inv text acts (fun a ha => ha) _ (bareIdState_inv text acts)
    · rw [if_neg h2]; exact bareIdState_inv text acts
  · rw [if_neg h1]; exact stInv_nil acts

theorem extractFinalState_inv (text : String) (acts : List Actividad) :
    StInv acts (extractFinalState text acts) :=
  foldl_pres (fun _ _ h => jsonStep_inv h) _ _ (preJsonState_inv text acts)

/-! ### Lemmas: the stable descending sort -/

theorem ordIns_perm (a : Recomendacion) (l : List Recomendacion) :
    (ordIns a l).Perm (a :: l) := by
  induction l with
  | nil => exact List.Perm.refl _
  | cons b t ih =>
    unfold ordIns
    by_cases h : keyGE a b = true
    · rw [if_pos h]
    · rw [if_neg h]
      exact (ih.cons b).trans (List.Perm.swap a b t)

theorem sortByScoreDesc_perm (l : List Recomendacion) :
    (sortByScoreDesc l).Perm l := by
  induction l with
  | nil => exact List.Perm.refl _
  | cons a t ih => exact (ordIns_perm a (sortByScoreDesc t)).trans (ih.cons a)

theorem mem_sortByScoreDesc {r : Recomendacion} {l : List Recomendacion} :
    r ∈ sortByScoreDesc l ↔ r ∈ l :=
  (sortByScoreDesc_perm l).mem_iff

/-- The sort key of a record with a numeric score. -/
def scoreOf (r : Recomendacion) : ℚ := (pyNum r.puntuacion).getD 0

/-- All records in the list have numeric scores. -/
def AllNumScores (l : List Recomendacion) : Prop :=
  ∀ r ∈ l, (pyNum r.puntuacion).isSome = true

theorem pyNum_scoreOf {r : Recomendacion}
    (h : (pyNum r.puntuacion).isSome = true) :
    pyNum r.puntuacion = some (scoreOf r) := by
  unfold scoreOf
  cases hp : pyNum r.puntuacion with
  | none => rw [hp] at h; simp at h
  | some q => simp [hp]

theorem jLt_num {a b : JVal} {x y : ℚ} (ha : pyNum a = some x)
    (hb : pyNum b = some y) : jLt a b = decide (x < y) := by
  cases a <;> cases b <;> simp_all [pyNum, jLt, numLt_eq, boolNum_toQ]

theorem keyGE_num {a b : Recomendacion}
    (ha : (pyNum a.puntuacion).isSome = true)
    (hb : (pyNum b.puntuacion).isSome = true) :
    keyGE a b = true ↔ scoreOf b ≤ scoreOf a := by
  unfold keyGE
  rw [jLt_num (pyNum_scoreOf ha) (pyNum_scoreOf hb)]
  simp [not_lt]

theorem keyGE_num_false {a b : Recomendacion}
    (ha : (pyNum a.puntuacion).isSome = true)
    (hb : (pyNum b.puntuacion).isSome = true)
    (h : ¬ keyGE a b = true) : scoreOf a < scoreOf b := by
  rw [keyGE_num ha hb] at h
  exact lt_of_not_ge h

theorem mem_ordIns {x a : Recomendacion} {l : List Recomendacion} :
    x ∈ ordIns a l ↔ x = a ∨ x ∈ l := by
  rw [(ordIns_perm a l).mem_iff, List.mem_cons]

/-- The relation the final list is sorted by: scores never increase. -/
def ScoreDesc (a b : Recomendacion) : Prop := scoreOf b ≤ scoreOf a

theorem pairwise_ordIns {a : Recomendacion} {l : List Recomendacion}
    (hna : (pyNum a.puntuacion).isSome = true) (hnl : AllNumScores l)
    (hp : l.Pairwise ScoreDesc) : (ordIns a l).Pairwise ScoreDesc := by
  induction l with
  | nil => simp [ordIns]
  | cons b t ih =>
    have hnb : (pyNum b.puntuacion).isSome = true := hnl b (List.mem_cons_self b t)
    have hnt : AllNumScores t := fun r hr => hnl r (List.mem_cons_of_mem _ hr)
    rw [List.pairwise_cons] at hp
    obtain ⟨hbt, hpt⟩ := hp
    unfold ordIns
    by_cases h : keyGE a b = true
    · rw [if_pos h]
      have hab : ScoreDesc a b := (keyGE_num hna hnb).mp h
      refine List.Pairwise.cons ?_ (List.Pairwise.cons hbt hpt)
      intro x hx
      rcases List.mem_cons.mp hx with hx | hx
      · subst hx; exact hab
      · exact le_trans (hbt x hx) hab
    · rw [if_neg h]
      have hba : scoreOf a < scoreOf b := keyGE_num_false hna hnb h
      refine List.Pairwise.cons ?_ (ih hnt hpt)
      intro x hx
      rcases mem_ordIns.mp hx with hx | hx
      · subst hx; exact le_of_lt hba
      · exact hbt x hx

theorem pairwise_sortByScoreDesc {l : List Recomendacion}
    (hn : AllNumScores l) : (sortByScoreDesc l).Pairwise ScoreDesc := by
  induction l with
  | nil => simp [sortByScoreDesc]
  | cons a t ih =>
    have hna : (pyNum a.puntuacion).isSome = true := hn a (List.mem_cons_self a t)
    have hnt : AllNumScores t := fun r hr => hn r (List.mem_cons_of_mem _ hr)
    have hns : AllNumScores (sortByScoreDesc t) := fun r hr =>
      hnt r (mem_sortByScoreDesc.mp hr)
    exact pairwise_ordIns hna hns (ih hnt)

theorem filter_ordIns {q : ℚ} {a : Recomendacion} {l : List Recomendacion}
    (hna : (pyNum a.puntuacion).isSome = true) (hnl : AllNumScores l) :
    (ordIns a l).filter (fun r => decide (pyNum r.puntuacion = some q)) =
      if pyNum a.puntuacion = some q then
        a :: l.filter (fun r => decide (pyNum r.puntuacion = some q))
      else l.filter (fun r => decide (pyNum r.puntuacion = some q)) := by
  induction l with
  | nil => by_cases hpa : pyNum a.puntuacion = some q <;> simp [ordIns, hpa]
  | cons b t ih =>
    have hnb : (pyNum b.puntuacion).isSome = true := hnl b (List.mem_cons_self b t)
    have hnt : AllNumScores t := fun r hr => hnl r (List.mem_cons_of_mem _ hr)
    unfold ordIns
    by_cases h : keyGE a b = true
    · rw [if_pos h]
      by_cases hpa : pyNum a.puntuacion = some q <;> simp [hpa]
    · rw [if_neg h]
      have hba : scoreOf a < scoreOf b := keyGE_num_false hna hnb h
      by_cases hpa : pyNum a.puntuacion = some q
      · have hqa : scoreOf a = q := by
          have := pyNum_scoreOf hna
          rw [hpa] at this
          exact (Option.some_injective _ this).symm
        have hpb : ¬ pyNum b.puntuacion = some q := by
          intro hb
          have : scoreOf b = q := by
            have := pyNum_scoreOf hnb
            rw [hb] at this
            exact (Option.some_injective _ this).symm
          rw [hqa, this] at hba
          exact lt_irrefl q hba
        rw [if_pos hpa]
        simp only [List.filter_cons, hpb, decide_eq_true_eq, if_neg hpb]
        rw [ih hnt, if_pos hpa]
        simp [hpb]
      · rw [if_neg hpa]
        simp only [List.filter_cons]
        rw [ih hnt, if_neg hpa]

theorem filter_sortByScoreDesc {q : ℚ} {l : List Recomendacion}
    (hn : AllNumScores l) :
    (sortByScoreDesc l).filter (fun r => decide (pyNum r.puntuacion = some q)) =
      l.filter (fun r => decide (pyNum r.puntuacion = some q)) := by
  induction l with
  | nil => rfl
  | cons a t ih =>
    have hna : (pyNum a.puntuacion).isSome = true := hn a (List.mem_cons_self a t)
    have hnt : AllNumScores t := fun r hr => hn r (List.mem_cons_of_mem _ hr)
    have hns : AllNumScores (sortByScoreDesc t) := fun r hr =>
      hnt r (mem_sortByScoreDesc.mp hr)
    show (ordIns a (sortByScoreDesc t)).filter _ = _
    rw [filter_ordIns hna hns]
    by_cases hpa : pyNum a.puntuacion = some q
    · rw [if_pos hpa, ih hnt]
      simp [List.filter_cons, hpa]
    · rw [if_neg hpa, ih hnt]
      simp [List.filter_cons, hpa]

/-! ### Lemmas: the comparability gate -/

theorem jComparable_num {a b : JVal} (ha : (pyNum a).isSome = true)
    (hb : (pyNum b).isSome = true) : jComparable a b = true := by
  cases a <;> cases b <;> simp_all [pyNum, jComparable]

theorem allComparable_of_num {vs : List JVal}
    (h : ∀ v ∈ vs, (pyNum v).isSome = true) : allComparable vs = true := by
  induction vs with
  | nil => rfl
  | cons x t ih =>
    unfold allComparable
    rw [Bool.and_eq_true]
    refine ⟨?_, ih (fun v hv => h v (List.mem_cons_of_mem _ hv))⟩
    rw [List.all_eq_true]
    intro v hv
    exact jComparable_num (h x (List.mem_cons_self x t))
      (h v (List.mem_cons_of_mem _ hv))

theorem extract_some_elim {text : String} {acts : List Actividad}
    {l : List Recomendacion}
    (h : extract_recommendations text acts = some l) :
    l = sortByScoreDesc (extractAccepted text acts) := by
  unfold extract_recommendations at h
  split at h
  · exact (Option.some_injective _ h).symm
  · exact absurd h (by simp)

/-! ### Concrete inputs used by the claim theorems and witnesses -/

def actFutbol : Actividad :=
  ⟨some 1, some "deportiva", some "Fútbol Sala", some "Torneo de fútbol sala",
   some "2025-11-30", some "Cancha Principal", some 5⟩

def actArte : Actividad :=
  ⟨some 2, some "cultural", some "Taller de Arte", some "Aprende a pintar",
   some "2025-12-01", some "Aula Magna", some 8⟩

def actCero : Actividad :=
  ⟨some 0, some "ambiental", some "Huerto urbano", none, none, none, none⟩

/-- A reply carrying the marker object for id 2 twice, with different
reasons, so the dedup direction is observable. -/
def textDoble : String :=
  "GENERAR_RECOMENDACION_JSON: \x7b\"actividad_id\": 2, \"razon\": \"A\", \"puntuacion\": 0.9\x7d\nGENERAR_RECOMENDACION_JSON: \x7b\"actividad_id\": 2, \"razon\": \"B\", \"puntuacion\": 0.9\x7d"

/-- A reply whose marker object supplies a score outside [0, 1]. -/
def textScore25 : String :=
  "GENERAR_RECOMENDACION_JSON: \x7b\"actividad_id\": 1, \"puntuacion\": 2.5\x7d"

/-- A reply with a marker object containing a nested object. -/
def textNested : String :=
  "GENERAR_RECOMENDACION_JSON: \x7b\"a\": \x7b\"b\": 1\x7d\x7d"

/-- A reply mentioning id 0 in bare-id form. -/
def textCero : String := "te sugiero \"actividad_id\": 0"

/-- A reply with a bare id and no marker. -/
def textBare : String := "te recomiendo \"actividad_id\": 1"

/-- A reply with two marker objects for different ids, lower score first. -/
def textTwo : String :=
  "GENERAR_RECOMENDACION_JSON: \x7b\"actividad_id\": 1, \"puntuacion\": 0.5\x7d GENERAR_RECOMENDACION_JSON: \x7b\"actividad_id\": 2, \"puntuacion\": 0.9\x7d"

def recArteA : Recomendacion :=
  ⟨.jnum ⟨2, 0⟩, "Taller de Arte", "cultural", .jstr "A", .jnum ⟨9, 1⟩, actArte⟩

def recArte09 : Recomendacion :=
  ⟨.jnum ⟨2, 0⟩, "Taller de Arte", "cultural", .jstr razonDefault, .jnum ⟨9, 1⟩, actArte⟩

def recFutbol05 : Recomendacion :=
  ⟨.jnum ⟨1, 0⟩, "Fútbol Sala", "deportiva", .jstr razonDefault, .jnum ⟨5, 1⟩, actFutbol⟩

def recFutbol08 : Recomendacion :=
  ⟨.jnum ⟨1, 0⟩, "Fútbol Sala", "deportiva", .jstr razonDefault, .jnum score08, actFutbol⟩

/-! ### Claim theorems -/

/-- C4: generate_recommendations checks its preconditions in order — the
claim's offline and no-candidates parts hold, but its success part is
broken in the code: because the `generate_content` call is not awaited,
an online call with candidates always ends in the `except` branch and
returns an error result, never the claimed successful empty result with
the raw reply text.  The last conjunct shows the claimed behaviour does
hold once the missing `await` is restored. -/
theorem C4_generate_flow :
    (∀ (acts : List Actividad) (reply : Option String),
       generate_recommendations false acts reply = ([], .errorResult msgOffline)) ∧
    (∀ reply, generate_recommendations true [] reply = ([], .errorResult msgNoActs)) ∧
    (∀ reply, generate_recommendations true [actFutbol] reply =
       ([.buildPrompts, .callBackend], .errorResult msgCoroutine)) ∧
    generate_recommendations_awaited true [actFutbol] (some "hola") =
      .okResult [] "hola" :=
  ⟨fun _ _ => rfl, fun _ => rfl, fun _ => rfl, rfl⟩

/-- C7 counterexample: on the literal identifiers of the claim the policy
selects nothing (they lack the required `models/gemini-` prefix), so the
configured name is kept; `"x-fast-latest"` is not picked. -/
theorem C7_counterexample :
    selectGeminiModel ["x-embedding-1", "x-2.5-fast", "x-fast-latest",
      "x-balanced-latest"] = none ∧
    ¬ selectGeminiModel ["x-embedding-1", "x-2.5-fast", "x-fast-latest",
      "x-balanced-latest"] = some "x-fast-latest" := by
  constructor <;> decide

/-- C7 (amended): identifiers must carry the `models/gemini-` prefix, the
fast tier is spelled `flash` and the balanced tier `pro`; on the
corresponding identifiers the policy picks `models/gemini-flash-latest`,
and when nothing survives the filter the configured name is kept with the
gateway online. -/
theorem C7_model_selection :
    selectGeminiModel ["models/gemini-embedding-1", "models/gemini-2.5-flash",
      "models/gemini-flash-latest", "models/gemini-pro-latest"] =
      some "models/gemini-flash-latest" ∧
    (∀ (configured : String) (names : List String),
       selectGeminiModel names = none →
       geminiModelAfterInit configured names = (configured, true)) := by
  refine ⟨by decide, ?_⟩
  intro configured names h
  unfold geminiModelAfterInit
  rw [h]

theorem C7_model_selection_witness :
    selectGeminiModel ["x-embedding-1", "x-2.5-fast", "x-fast-latest",
      "x-balanced-latest"] = none ∧
    geminiModelAfterInit "gemini-pro" ["x-embedding-1", "x-2.5-fast",
      "x-fast-latest", "x-balanced-latest"] = ("gemini-pro", true) :=
  ⟨by decide, C7_model_selection.2 "gemini-pro" ["x-embedding-1", "x-2.5-fast",
      "x-fast-latest", "x-balanced-latest"] (by decide)⟩

theorem pollHealth_attempts_le (probes : Nat → ProbeResult) (delay : Nat) :
    ∀ n i, (pollHealth probes delay n i).2.1 ≤ n := by
  intro n
  induction n with
  | zero => intro i; exact Nat.le_refl 0
  | succ n ih =>
    intro i
    unfold pollHealth
    cases probes i with
    | ok => exact Nat.succ_le_succ (Nat.zero_le n)
    | respError => exact Nat.succ_le_succ (ih (i + 1))
    | failure => exact Nat.succ_le_succ (Nat.zero_le n)

/-- C9: with the default budget (30 attempts, 1 second spacing), a probe
sequence failing five times and then succeeding leaves the manager online
after exactly 6 polling attempts (5 seconds slept), and no oracle ever
makes the loop exceed its budget of 30 attempts. -/
theorem C9_daemon_bootstrap :
    start_ollama_server .respError true
      (fun i => if i < 5 then .respError else .ok) 30 1 = (true, 6, 5) ∧
    (∀ (pre : ProbeResult) (spawnOk : Bool) (probes : Nat → ProbeResult),
       (start_ollama_server pre spawnOk probes 30 1).2.1 ≤ 30) := by
  refine ⟨by decide, ?_⟩
  intro pre spawnOk probes
  cases pre with
  | ok => exact Nat.zero_le 30
  | respError =>
    simp only [start_ollama_server]
    by_cases h : spawnOk = true
    · rw [if_pos h]; exact pollHealth_attempts_le probes 1 30 0
    · rw [if_neg h]; exact Nat.zero_le 30
  | failure =>
    simp only [start_ollama_server]
    by_cases h : spawnOk = true
    · rw [if_pos h]; exact pollHealth_attempts_le probes 1 30 0
    · rw [if_neg h]; exact Nat.zero_le 30

/-- C1: every record returned by the extraction step carries (numerically)
the id of some candidate with a truthy id; ids in the reply that are not
candidate ids never produce a record. -/
theorem C1_ids_are_candidate_ids :
    ∀ (text : String) (acts : List Actividad) (l : List Recomendacion),
      extract_recommendations text acts = some l →
      ∀ r ∈ l, ∃ a ∈ acts, ∃ i : Int, a.id = some i ∧ i ≠ 0 ∧
        pyNum r.actividad_id = some (i : ℚ) := by
  intro text acts l h r hr
  rw [extract_some_elim h] at hr
  exact (extractFinalState_inv text acts).2.1 r (mem_sortByScoreDesc.mp hr)

set_option maxRecDepth 8000 in
theorem C1_ids_are_candidate_ids_witness :
    ∃ a ∈ [actFutbol, actArte], ∃ i : Int, a.id = some i ∧ i ≠ 0 ∧
      pyNum recArteA.actividad_id = some (i : ℚ) :=
  C1_ids_are_candidate_ids textDoble [actFutbol, actArte] [recArteA] rfl
    recArteA (List.mem_singleton.mpr rfl)

set_option maxRecDepth 8000 in
/-- C2: no two records in an extraction result share an id (numerically),
and for a reply carrying the marker object for id 2 twice, exactly one
record for id 2 is returned — the first accepted one (its reason is the
first object's `"A"`, not the second's `"B"`). -/
theorem C2_dedup_first_wins :
    (∀ (text : String) (acts : List Actividad) (l : List Recomendacion),
       extract_recommendations text acts = some l →
       l.Pairwise (fun r t => pyNum r.actividad_id ≠ pyNum t.actividad_id)) ∧
    extract_recommendations textDoble [actFutbol, actArte] = some [recArteA] := by
  constructor
  · intro text acts l h
    rw [extract_some_elim h]
    exact ((sortByScoreDesc_perm (extractAccepted text acts)).pairwise_iff
      (fun hab => Ne.symm hab)).mpr (extractFinalState_inv text acts).2.2
  · rfl

set_option maxRecDepth 8000 in
theorem C2_dedup_first_wins_witness :
    [recArte09, recFutbol05].Pairwise
      (fun r t => pyNum r.actividad_id ≠ pyNum t.actividad_id) :=
  C2_dedup_first_wins.1 textTwo [actFutbol, actArte] [recArte09, recFutbol05] rfl

set_option maxRecDepth 8000 in
/-- C10: a record with actividad_id 0 is never emitted — the id set is
built with a truthiness filter and every stage re-checks it — even when 0
is a candidate id mentioned in the reply text. -/
theorem C10_zero_id_never_emitted :
    (∀ (text : String) (acts : List Actividad) (l : List Recomendacion),
       extract_recommendations text acts = some l →
       ∀ r ∈ l, ¬ pyNum r.actividad_id = some 0) ∧
    extract_recommendations textCero [actCero] = some [] := by
  constructor
  · intro text acts l h r hr heq
    rw [extract_some_elim h] at hr
    obtain ⟨a, _, i, _, hne, hnum⟩ :=
      (extractFinalState_inv text acts).2.1 r (mem_sortByScoreDesc.mp hr)
    rw [hnum] at heq
    have : (i : ℚ) = 0 := Option.some_injective _ heq
    exact hne (by exact_mod_cast this)
  · rfl

set_option maxRecDepth 8000 in
theorem C10_zero_id_never_emitted_witness :
    ¬ pyNum recArte09.actividad_id = some 0 :=
  C10_zero_id_never_emitted.1 textTwo [actFutbol, actArte]
    [recArte09, recFutbol05] rfl recArte09 (List.mem_cons_self _ _)

/-- C3: when every accepted record has a numeric score (as all defaults
and well-formed replies produce), extraction succeeds and returns the
records sorted by score descending, records with equal score appearing in
acceptance order (the filter at each score value is unchanged). -/
theorem C3_sorted_desc_stable :
    ∀ (text : String) (acts : List Actividad),
      AllNumScores (extractAccepted text acts) →
      ∃ l, extract_recommendations text acts = some l ∧
        l.Pairwise ScoreDesc ∧
        ∀ q : ℚ, l.filter (fun r => decide (pyNum r.puntuacion = some q)) =
          (extractAccepted text acts).filter
            (fun r => decide (pyNum r.puntuacion = some q)) := by
  intro text acts hn
  have hgate : allComparable ((extractAccepted text acts).map (·.puntuacion)) = true := by
    apply allComparable_of_num
    intro v hv
    obtain ⟨r, hr, rfl⟩ := List.mem_map.mp hv
    exact hn r hr
  refine ⟨sortByScoreDesc (extractAccepted text acts), ?_,
    pairwise_sortByScoreDesc hn, fun q => filter_sortByScoreDesc hn⟩
  unfold extract_recommendations
  rw [if_pos hgate]

set_option maxRecDepth 8000 in
theorem C3_sorted_desc_stable_witness :
    AllNumScores (extractAccepted textTwo [actFutbol, actArte]) ∧
    ∃ l, extract_recommendations textTwo [actFutbol, actArte] = some l ∧
      l.Pairwise ScoreDesc ∧
      ∀ q : ℚ, l.filter (fun r => decide (pyNum r.puntuacion = some q)) =
        (extractAccepted textTwo [actFutbol, actArte]).filter
          (fun r => decide (pyNum r.puntuacion = some q)) :=
  have hnum : AllNumScores (extractAccepted textTwo [actFutbol, actArte]) := by
    show ∀ r ∈ extractAccepted textTwo [actFutbol, actArte],
      (pyNum r.puntuacion).isSome = true
    decide
  ⟨hnum, C3_sorted_desc_stable textTwo [actFutbol, actArte] hnum⟩

/-! ### Lemmas for C5: scores produced by the fallback stages -/

/-- All accepted records carry one of the two fixed default scores. -/
def DefaultScores (s : ExtractState) : Prop :=
  ∀ r ∈ s.recommendations,
    r.puntuacion = .jnum score08 ∨ r.puntuacion = .jnum score085

theorem idStep_scores {acts : List Actividad} {idSet : List Int}
    {s : ExtractState} {ds : String} (h : DefaultScores s) :
    DefaultScores (idStep acts idSet s ds) := by
  unfold idStep
  by_cases hc : (memIdSet (.jnum (NumV.ofInt (pyInt ds))) idSet &&
      !memProcessed (.jnum (NumV.ofInt (pyInt ds))) s.processed_ids) = true
  · rw [if_pos hc]
    cases hfind : findActividad acts (.jnum (NumV.ofInt (pyInt ds))) with
    | none => simp only [hfind]; exact h
    | some act =>
      simp only [hfind]
      intro r hr
      rcases List.mem_append.mp hr with hr | hr
      · exact h r hr
      · simp at hr; subst hr; exact Or.inl rfl
  · rw [if_neg hc]; exact h

theorem titleScan_scores {text : String} :
    ∀ (l : List Actividad) (s : ExtractState), DefaultScores s →
      DefaultScores (titleScan text s l) := by
  intro l
  induction l with
  | nil => intro s h; exact h
  | cons act rest ih =>
    intro s h
    unfold titleScan
    by_cases h1 : (!(pyStrip (act.titulo.getD "")).isEmpty &&
        decide ((pyStrip (act.titulo.getD "")).length > 3) &&
        strContains text (pyStrip (act.titulo.getD ""))) = true
    · rw [if_pos h1]
      cases act.id with
      | none => exact ih s h
      | some i =>
        dsimp only
        by_cases h2 : (decide (i ≠ 0) &&
            !memProcessed (.jnum (NumV.ofInt i)) s.processed_ids) = true
        · rw [if_pos h2]
          intro r hr
          rcases List.mem_append.mp hr with hr | hr
          · exact h r hr
          · simp at hr; subst hr; exact Or.inr rfl
        · rw [if_neg h2]; exact ih s h
    · rw [if_neg h1]; exact ih s h

theorem preJsonState_scores (text : String) (acts : List Actividad) :
    DefaultScores (preJsonState text acts) := by
  have hbare : DefaultScores (bareIdState text acts) :=
    foldl_pres (fun _ _ h => idStep_scores h) _ _ (by intro r hr; simp at hr)
  unfold preJsonState
  by_cases h1 : (matchesOf text).isEmpty = true
  · rw [if_pos h1]
    by_cases h2 : ((findAllActivityIds text).isEmpty &&
        (bareIdState text acts).recommendations.isEmpty) = true
    · rw [if_pos h2]
      exact titleScan_scores acts _ hbare
    · rw [if_neg h2]; exact hbare
  · rw [if_neg h1]
    intro r hr
    simp at hr

/-- C5 (amended): the score is not clamped.  When the reply has no marker
match, every record comes from the fallback stages and carries one of the
fixed defaults 0.8 / 0.85 (both inside [0, 1]); but a score supplied in a
parsed marker object is emitted verbatim — the second conjunct shows the
supplied 2.5 passing through unclamped. -/
theorem C5_score_passthrough :
    (∀ (text : String) (acts : List Actividad),
       matchesOf text = [] →
       ∀ r ∈ extractAccepted text acts,
         r.puntuacion = .jnum score08 ∨ r.puntuacion = .jnum score085) ∧
    (extract_recommendations textScore25 [actFutbol]).map
      (List.map (·.puntuacion)) = some [.jnum ⟨25, 1⟩] := by
  constructor
  · intro text acts hms r hr
    have hstate : extractAccepted text acts = (preJsonState text acts).recommendations := by
      unfold extractAccepted extractFinalState
      rw [hms]
      rfl
    rw [hstate] at hr
    exact preJsonState_scores text acts r hr
  · set_option maxRecDepth 8000 in rfl

set_option maxRecDepth 8000 in
theorem C5_score_passthrough_witness :
    matchesOf textBare = [] ∧
    (recFutbol08.puntuacion = .jnum score08 ∨
      recFutbol08.puntuacion = .jnum score085) :=
  ⟨rfl, C5_score_passthrough.1 textBare [actFutbol] rfl recFutbol08
    (List.mem_singleton.mpr rfl)⟩

set_option maxRecDepth 8000 in
/-- C5 counterexample: a reply supplying score 2.5 yields a record whose
puntuacion is 2.5, outside [0, 1] — no clamping or validation happens. -/
theorem C5_counterexample :
    (extract_recommendations textScore25 [actFutbol]).map
      (List.map (·.puntuacion)) = some [.jnum ⟨25, 1⟩] ∧
    ¬ ((NumV.mk 25 1).toQ ≤ 1) := by
  refine ⟨rfl, ?_⟩
  rw [NumV.toQ]
  norm_num

/-! ### Lemmas for C6: shape of the multiline-regex captures -/

theorem takeObj_shape {cs cap rest : List Char}
    (h : takeObj cs = some (cap, rest)) :
    ∃ mid, cap = '\x7b' :: (mid ++ ['\x7d']) ∧ '\x7d' ∉ mid := by
  unfold takeObj at h
  split at h
  · rename_i rest2
    dsimp only at h
    split at h
    · rename_i after heq
      injection h with h1
      injection h1 with hcap hrest
      refine ⟨rest2.takeWhile (fun c => c ≠ '\x7d'), hcap.symm, ?_⟩
      intro hmem
      have := List.mem_takeWhile_imp hmem
      simp at this
    · exact absurd h (by simp)
  · exact absurd h (by simp)

theorem tryMarker_shape {m cs : List Char} {cap rest : List Char}
    (h : tryMarker m cs = some (cap, rest)) :
    ∃ mid, cap = '\x7b' :: (mid ++ ['\x7d']) ∧ '\x7d' ∉ mid := by
  unfold tryMarker at h
  split at h
  · exact takeObj_shape h
  · exact absurd h (by simp)

theorem tryMarkers_shape {markers : List (List Char)} {cs cap rest : List Char}
    (h : tryMarkers markers cs = some (cap, rest)) :
    ∃ mid, cap = '\x7b' :: (mid ++ ['\x7d']) ∧ '\x7d' ∉ mid := by
  induction markers with
  | nil => exact absurd h (by simp [tryMarkers])
  | cons m ms ih =>
    unfold tryMarkers at h
    split at h
    · rename_i r heq
      injection h with h1
      subst h1
      exact tryMarker_shape heq
    · exact ih h

theorem findAllAux_shape {markers : List (List Char)} :
    ∀ {fuel : Nat} {cs cap : List Char}, cap ∈ findAllAux markers fuel cs →
      ∃ mid, cap = '\x7b' :: (mid ++ ['\x7d']) ∧ '\x7d' ∉ mid := by
  intro fuel
  induction fuel with
  | zero => intro cs cap h; exact absurd h (by simp [findAllAux])
  | succ n ih =>
    intro cs cap h
    match cs with
    | [] => exact absurd h (by simp [findAllAux])
    | c :: cs' =>
      unfold findAllAux at h
      split at h
      · rename_i p heq
        rcases List.mem_cons.mp h with h | h
        · subst h
          exact tryMarkers_shape heq
        · exact ih h
      · exact ih h

/-- C6 (amended): the multiline marker stage is consulted only when the
single-line stage found nothing, and its lazy pattern captures from the
opening brace to the FIRST closing brace — not to the balancing one — so
an object containing nested braces is truncated. -/
theorem C6_multiline_stage :
    (∀ text : String, (findAllRecMarker text).isEmpty = false →
       matchesOf text = findAllRecMarker text) ∧
    (∀ (text cap : String), cap ∈ findAllRecMarkerMultiline text →
       ∃ mid, cap.data = '\x7b' :: (mid ++ ['\x7d']) ∧ '\x7d' ∉ mid) := by
  constructor
  · intro text h
    simp [matchesOf, h]
  · intro text cap hcap
    unfold findAllRecMarkerMultiline at hcap
    obtain ⟨l, hl, rfl⟩ := List.mem_map.mp hcap
    exact findAllAux_shape hl

set_option maxRecDepth 8000 in
/-- C6 counterexample: on a marker object with a nested object, the
multiline regex captures only up to the first closing brace — one
character short of the balanced object the claim describes. -/
theorem C6_counterexample :
    findAllRecMarkerMultiline textNested = ["\x7b\"a\": \x7b\"b\": 1\x7d"] ∧
    ¬ findAllRecMarkerMultiline textNested =
        ["\x7b\"a\": \x7b\"b\": 1\x7d\x7d"] :=
  ⟨rfl, by decide⟩

set_option maxRecDepth 8000 in
theorem C6_multiline_stage_witness :
    ((findAllRecMarker textDoble).isEmpty = false ∧
      matchesOf textDoble = findAllRecMarker textDoble) ∧
    ∃ mid, ("\x7b\"a\": \x7b\"b\": 1\x7d" : String).data =
        '\x7b' :: (mid ++ ['\x7d']) ∧ '\x7d' ∉ mid :=
  ⟨⟨rfl, C6_multiline_stage.1 textDoble rfl⟩,
   C6_multiline_stage.2 textNested "\x7b\"a\": \x7b\"b\": 1\x7d"
     (List.mem_singleton.mpr rfl)⟩

/-! ### Lemmas for C8: prompt decomposition around the candidate catalog -/

theorem formatTemplate_append (t1 t2 : List TPart) (f : TVar → String) :
    formatTemplate (t1 ++ t2) f = formatTemplate t1 f ++ formatTemplate t2 f := by
  induction t1 with
  | nil =>
    show formatTemplate t2 f = "" ++ formatTemplate t2 f
    exact (String.empty_append _).symm
  | cons p t ih =>
    cases p with
    | lit s =>
      show s ++ formatTemplate (t ++ t2) f = (s ++ formatTemplate t f) ++ _
      rw [ih, String.append_assoc]
    | var v =>
      show f v ++ formatTemplate (t ++ t2) f = (f v ++ formatTemplate t f) ++ _
      rw [ih, String.append_assoc]

/-- A schematic candidate: id n+1, a category, a title. -/
def mkActN (n : Nat) : Actividad :=
  ⟨some ((n : Int) + 1), some "cultural", some ("Actividad " ++ toString (n + 1)),
   none, none, none, none⟩

def acts45 : List Actividad := (List.range 45).map mkActN

def acts30 : List Actividad := (List.range 30).map mkActN

/-- C8: both prompt builders serialize exactly the first 30 candidates of
the supplied list, in original order — the same cap for both — and for the
45-candidate instance the serialized slice is precisely the first 30. -/
theorem C8_prompt_catalog_cap :
    (∀ (user_query : String) (preferencias : List Preferencia)
       (acts : List Actividad) (historial : List JVal)
       (hobbies intereses : Option String),
       ∃ pre post, create_recommendation_prompt user_query preferencias acts
           historial hobbies intereses =
         pre ++ dumpActividades (acts.take 30) ++ post) ∧
    (∀ (t1 t2 : List TPart) (config : PromptConfig) (usuario_id : Int)
       (preferencias : List Preferencia) (acts : List Actividad)
       (historial : List JVal) (hobbies intereses : Option String)
       (fecha : String),
       ∃ pre post, create_system_prompt
           (t1 ++ TPart.var .actividades_disponibles :: t2) config usuario_id
           preferencias acts historial hobbies intereses fecha =
         pre ++ dumpActividadesInd (acts.take 30) ++ post) ∧
    acts45.take 30 = acts30 := by
  refine ⟨?_, ?_, ?_⟩
  · intro uq prefs acts hist hob intr
    refine ⟨promptHeader ++ jdumps (.jarr (prefs.map Preferencia.toJVal)) ++
      "\n" ++ hobbiesInfo hob ++ "\n" ++ interesesInfo intr ++
      promptSchemaBlock ++ keywordsStr hob intr ++ promptSchemaRest,
      "\n\nHistorial de participación: " ++ jdumps (.jarr hist) ++
      promptRules ++
      (if !uq.isEmpty then "Consulta del usuario: " ++ uq ++ "\n\n" else "") ++
      promptFormatBlock, ?_⟩
    simp only [create_recommendation_prompt, String.append_assoc]
  · intro t1 t2 config uid prefs acts hist hob intr fecha
    refine ⟨formatTemplate t1 (systemPromptSubst config uid prefs acts hist
      hob intr fecha),
      formatTemplate t2 (systemPromptSubst config uid prefs acts hist
      hob intr fecha), ?_⟩
    show formatTemplate _ _ = _
    rw [formatTemplate_append]
    show _ ++ (systemPromptSubst config uid prefs acts hist hob intr fecha
        .actividades_disponibles ++ formatTemplate t2 _) = _
    rw [String.append_assoc]
    rfl
  · simp only [acts45, acts30, ← List.map_take, List.take_range]
    norm_num

end SmartCampus
